import Mathlib

/-!
# Code-host identity and GitHub thread reconciliation

A shallow embedding of

* `internal/extsvc/codehost.go` (`NormalizeBaseURL`, `NewCodeHost`),
* `enterprise/cmd/frontend/internal/threads/external_service.go`
  (`CreateOnExternalService`),
* `enterprise/cmd/frontend/internal/threads/github_thread.go`
  (`UpdateGitHubThreadMetadata`, `getExistingGitHubIssueOrPullRequest`,
  `getExistingGitHubThreadsByQuery`, `createOrGetExistingGitHubThreadsByQuery`).

Go strings are Lean `String`s (valid UTF-8 only), `int64`/`int32` values are
`Int` (no arithmetic is performed on them), a Go `(value, error)` pair is a pair
whose second component is an `Option GoError` (or an `Except` where the code
never reads the value next to a non-nil error).

The serializer `(*url.URL).String` of Go's `net/url` is written out after the
library, so that a `ServiceID` can be computed; the theorems that hold for every
serializer take it as a field of `GoStd`.

Calls that leave the three files (database, code host, gitserver, repository
resolvers) are answered by an environment `Env`; every such call is appended to
a `Trace`, and the answer may depend on the whole trace so far.
-/

namespace Sourcegraph

/-! ## The parts of the Go standard library the code uses -/

/-- Go `strings.HasPrefix`. -/
def HasPrefix (s pfx : String) : Bool :=
  pfx.data.isPrefixOf s.data

/-- Go `strings.HasSuffix`. -/
def HasSuffix (s suffix : String) : Bool :=
  suffix.data.isSuffixOf s.data

/-- Go `strings.TrimSuffix`: `s` without the trailing `suffix`, or `s` itself
when it does not end in `suffix`. -/
def TrimSuffix (s suffix : String) : String :=
  if HasSuffix s suffix then
    ⟨s.data.take (s.data.length - suffix.data.length)⟩
  else s

/-- Go `strings.ToLower`, which maps every rune through `unicode.ToLower`; the
Unicode table `unicode.ToLower` is the argument `lowerRune`. -/
def ToLower (lowerRune : Char → Char) (s : String) : String :=
  ⟨s.data.map lowerRune⟩

/-! ## internal/extsvc/codehost.go -/

/-- Go `url.Userinfo`. -/
structure Userinfo where
  username : String
  password : String
  passwordSet : Bool
deriving DecidableEq, Repr

/-- Go `url.URL` (the fields of the struct). `Host` is `host` or `host:port`. -/
structure URL where
  Scheme : String
  Opaque : String
  User : Option Userinfo
  Host : String
  Path : String
  RawPath : String
  ForceQuery : Bool
  RawQuery : String
  Fragment : String
deriving DecidableEq, Repr

/-! ### Serialization of a URL in Go's `net/url` -/

/-- The escaping modes of package `net/url` that `(*url.URL).String` uses. -/
inductive encoding where
  | encodePath
  | encodeHost
  | encodeUserPassword
  | encodeFragment
deriving DecidableEq, Repr

/-- The bytes of the UTF-8 encoding of a rune. -/
def utf8Bytes (c : Char) : List Nat :=
  let n := c.toNat
  if n < 0x80 then [n]
  else if n < 0x800 then [0xC0 + n / 64, 0x80 + n % 64]
  else if n < 0x10000 then [0xE0 + n / 4096, 0x80 + n / 64 % 64, 0x80 + n % 64]
  else [0xF0 + n / 262144, 0x80 + n / 4096 % 64, 0x80 + n / 64 % 64, 0x80 + n % 64]

/-- The bytes of a Go string. -/
def stringBytes (s : String) : List Nat :=
  (s.data.map utf8Bytes).flatten

/-- Function `shouldEscape` of `net/url` on an ASCII byte, for the four modes
above. -/
def shouldEscape (c : Char) (mode : encoding) : Bool :=
  if ('a' ≤ c ∧ c ≤ 'z') ∨ ('A' ≤ c ∧ c ≤ 'Z') ∨ ('0' ≤ c ∧ c ≤ '9') then false
  else if mode = encoding.encodeHost ∧
      c ∈ ['!', '$', '&', Char.ofNat 39, '(', ')', '*', '+', ',', ';', '=', ':', '[', ']',
        '<', '>', Char.ofNat 34] then false
  else if c ∈ ['-', '_', '.', '~'] then false
  else if c ∈ ['$', '&', '+', ',', '/', ':', ';', '=', '?', '@'] ∧
      mode ≠ encoding.encodeHost then
    match mode with
    | encoding.encodePath => c == '?'
    | encoding.encodeUserPassword => c == '@' || c == '/' || c == '?' || c == ':'
    | _ => false
  else if mode = encoding.encodeFragment ∧ c ∈ ['!', '(', ')', '*'] then false
  else true

/-- The upper-case hexadecimal digit of a number below 16. -/
def hexDigit (n : Nat) : Char :=
  "0123456789ABCDEF".data.getD n '0'

/-- Function `escape` of `net/url` for the four modes above: every byte that
`shouldEscape` names, and every byte of a rune outside ASCII, becomes `%XX`. -/
def escape (s : String) (mode : encoding) : String :=
  ⟨(s.data.map fun c =>
    if c.toNat < 0x80 ∧ shouldEscape c mode = false then [c]
    else ((utf8Bytes c).map fun b => ['%', hexDigit (b / 16), hexDigit (b % 16)]).flatten).flatten⟩

/-- Function `unhex` of `net/url`, with `ishex` as definedness. -/
def unhex (c : Char) : Option Nat :=
  if '0' ≤ c ∧ c ≤ '9' then some (c.toNat - '0'.toNat)
  else if 'a' ≤ c ∧ c ≤ 'f' then some (c.toNat - 'a'.toNat + 10)
  else if 'A' ≤ c ∧ c ≤ 'F' then some (c.toNat - 'A'.toNat + 10)
  else none

/-- Function `unescape` of `net/url` in mode `encodePath`, as bytes: `none` is
the `EscapeError`. -/
def unescapePath : List Char → Option (List Nat)
  | [] => some []
  | c :: rest =>
    if c = '%' then
      match rest with
      | a :: b :: rest2 =>
        match unhex a, unhex b, unescapePath rest2 with
        | some x, some y, some bytes => some ((16 * x + y) :: bytes)
        | _, _, _ => none
      | _ => none
    else
      match unescapePath rest with
      | some bytes => some (utf8Bytes c ++ bytes)
      | none => none

/-- Function `validEncoded` of `net/url` in mode `encodePath`. -/
def validEncoded (s : String) : Bool :=
  s.data.all fun c =>
    c ∈ ['!', '$', '&', Char.ofNat 39, '(', ')', '*', '+', ',', ';', '=', ':', '@',
      '[', ']', '%'] ||
    (decide (c.toNat < 0x80) && !shouldEscape c encoding.encodePath)

/-- Method `(*url.URL).EscapedPath`. -/
def URL.EscapedPath (u : URL) : String :=
  if u.RawPath ≠ "" ∧ validEncoded u.RawPath = true ∧
      unescapePath u.RawPath.data = some (stringBytes u.Path) then u.RawPath
  else if u.Path = "*" then "*"
  else escape u.Path encoding.encodePath

/-- Method `(*url.Userinfo).String`. -/
def Userinfo.String (ui : Userinfo) : String :=
  let s := escape ui.username encoding.encodeUserPassword
  if ui.passwordSet then s ++ ":" ++ escape ui.password encoding.encodeUserPassword else s

/-- Method `(*url.URL).String` of Go's `net/url` (the struct without
`RawFragment`). -/
def URL.String (u : URL) : String :=
  let buf := if u.Scheme ≠ "" then u.Scheme ++ ":" else ""
  let buf :=
    if u.Opaque ≠ "" then buf ++ u.Opaque
    else
      let buf :=
        if u.Scheme ≠ "" ∨ u.Host ≠ "" ∨ u.User.isSome then
          let buf :=
            if u.Host ≠ "" ∨ u.Path ≠ "" ∨ u.User.isSome then buf ++ "//" else buf
          let buf :=
            match u.User with
            | some ui => buf ++ ui.String ++ "@"
            | none => buf
          if u.Host ≠ "" then buf ++ escape u.Host encoding.encodeHost else buf
        else buf
      let path := u.EscapedPath
      let buf :=
        if path ≠ "" ∧ path.data.head? ≠ some '/' ∧ u.Host ≠ "" then buf ++ "/" else buf
      let buf :=
        if buf = "" ∧ ':' ∈ path.data ∧ '/' ∉ path.data.takeWhile (fun c => c != ':') then
          buf ++ "./"
        else buf
      buf ++ path
  let buf := if u.ForceQuery ∨ u.RawQuery ≠ "" then buf ++ "?" ++ u.RawQuery else buf
  if u.Fragment ≠ "" then buf ++ "#" ++ escape u.Fragment encoding.encodeFragment else buf

/-! ### The code of the file -/

/-- The functions of the Go standard library that are used as black boxes. -/
structure GoStd where
  /-- Table `unicode.ToLower`. -/
  unicodeToLower : Char → Char
  /-- Method `(*url.URL).String`. -/
  urlString : URL → String
  /-- Function `strconv.Quote`, the rendering of the verb `%q`. -/
  strconvQuote : String → String

/-- Type `CodeHost`. `BaseURL` is a pointer in Go; the field holds the value it
points to when `NewCodeHost` returns. -/
structure CodeHost where
  ServiceID : String
  ServiceType : String
  BaseURL : URL
deriving DecidableEq, Repr

/-- Function `NormalizeBaseURL`. The Go function mutates `*baseURL` and returns
the same pointer; the result here is the value of `*baseURL` after the call. -/
def NormalizeBaseURL (std : GoStd) (baseURL : URL) : URL :=
  let baseURL := { baseURL with Host := ToLower std.unicodeToLower baseURL.Host }
  if !HasSuffix baseURL.Path "/" then
    { baseURL with Path := baseURL.Path ++ "/" }
  else baseURL

/-- Function `NewCodeHost`. The field `ServiceID` is evaluated first and
normalizes `*baseURL` in place, so the pointer stored in `BaseURL` points to the
normalized value. -/
def NewCodeHost (std : GoStd) (baseURL : URL) (serviceType : String) : CodeHost :=
  let normalized := NormalizeBaseURL std baseURL
  { ServiceID := std.urlString normalized
    ServiceType := serviceType
    BaseURL := normalized }

/-- Two hosts that differ at most in letter case: same length, and at every
position the two runes have the same lower-case form. -/
def SameUpToCase (lowerRune : Char → Char) (h1 h2 : String) : Prop :=
  List.Forall₂ (fun a b => lowerRune a = lowerRune b) h1.data h2.data

/-- Two paths that differ at most in the presence of a trailing `/`: they are
equal, or one does not end in `/` and the other is it followed by one `/`. -/
def SameUpToTrailingSlash (p1 p2 : String) : Prop :=
  p1 = p2 ∨ (HasSuffix p1 "/" = false ∧ p2 = p1 ++ "/") ∨
    (HasSuffix p2 "/" = false ∧ p1 = p2 ++ "/")

/-- Two base URLs that differ only in the letter case of the host and/or in the
presence of a trailing `/` of the path, in its decoded form `Path` and in its
encoded form `RawPath`; the scheme, opaque part, user info, query and fragment
are the same. -/
def DifferOnlyInHostCaseOrTrailingSlash (lowerRune : Char → Char) (u1 u2 : URL) : Prop :=
  u1.Scheme = u2.Scheme ∧ u1.Opaque = u2.Opaque ∧ u1.User = u2.User ∧
  u1.ForceQuery = u2.ForceQuery ∧
  u1.RawQuery = u2.RawQuery ∧ u1.Fragment = u2.Fragment ∧
  SameUpToCase lowerRune u1.Host u2.Host ∧ SameUpToTrailingSlash u1.Path u2.Path ∧
  SameUpToTrailingSlash u1.RawPath u2.RawPath

/-- A standard library with the serializer of `net/url`, whose lower-casing is
the ASCII one and whose quoting adds the two quotes. -/
def asciiStd : GoStd where
  unicodeToLower := Char.toLower
  urlString := URL.String
  strconvQuote := fun s => "\"" ++ s ++ "\""

/-- Example URL `https://GitHub.com`. -/
def exampleURL1 : URL :=
  { Scheme := "https", Opaque := "", User := none, Host := "GitHub.com", Path := "",
    RawPath := "", ForceQuery := false, RawQuery := "", Fragment := "" }

/-- The value that `url.Parse` returns for `https://github.com/a%2Fb`: the
escape `%2F` is kept in `RawPath` because the default encoding of the decoded
path is another string. -/
def escapedPathURL : URL :=
  { Scheme := "https", Opaque := "", User := none, Host := "github.com", Path := "/a/b",
    RawPath := "/a%2Fb", ForceQuery := false, RawQuery := "", Fragment := "" }

/-- The value that `url.Parse` returns for `https://github.com/a%2Fb/`. -/
def escapedPathSlashURL : URL :=
  { Scheme := "https", Opaque := "", User := none, Host := "github.com", Path := "/a/b/",
    RawPath := "/a%2Fb/", ForceQuery := false, RawQuery := "", Fragment := "" }

/-- Example URL `https://github.COM/`. -/
def exampleURL2 : URL :=
  { Scheme := "https", Opaque := "", User := none, Host := "github.COM", Path := "/",
    RawPath := "", ForceQuery := false, RawQuery := "", Fragment := "" }

/-! ## Errors, collaborators and the trace of outside calls -/

/-- A Go `error` value, seen through the two observations the code makes of
one: its message (`Error()`, the verb `%s`) and `errcode.IsNotFound`. -/
structure GoError where
  msg : String
  notFound : Bool
deriving DecidableEq, Repr

/-- Go `errors.New` and `fmt.Errorf`: an error that only carries a message. -/
def errorsNew (text : String) : GoError :=
  { msg := text, notFound := false }

/-- The verb `%d` of package `fmt` on an integer. -/
def fmtInt (n : Int) : String :=
  toString n

/-- Handle of a `*github.Client`. -/
structure Client where
  handle : Nat
deriving DecidableEq, Repr

/-- Field `Repository` of a `githubIssueOrPullRequest`. -/
structure githubRepository where
  NameWithOwner : String
deriving DecidableEq, Repr

/-- Type `githubIssueOrPullRequest` (declared elsewhere in the package), with
the fields the three files read. -/
structure githubIssueOrPullRequest where
  Repository : githubRepository
  Title : String
  Number : Int
deriving DecidableEq, Repr

/-- Type `externalThread` (declared elsewhere in the package): the value that
`newExternalThread` builds, kept as the arguments it is built from. -/
structure externalThread where
  node : githubIssueOrPullRequest
  repoID : Int
  externalServiceID : Int
deriving DecidableEq, Repr

/-- Function `newExternalThread` (declared elsewhere in the package). -/
def newExternalThread (node : githubIssueOrPullRequest) (repoID externalServiceID : Int) :
    externalThread :=
  { node := node, repoID := repoID, externalServiceID := externalServiceID }

/-- Type `db.LimitOffset`. -/
structure LimitOffset where
  Limit : Int
  Offset : Int
deriving DecidableEq, Repr

/-- Type `db.ReposListOptions`, with the fields the code sets. -/
structure ReposListOptions where
  Enabled : Bool
  LimitOffset : Option LimitOffset
deriving DecidableEq, Repr

/-- Type `types.Repo`. -/
structure Repo where
  ID : Int
  Name : String
deriving DecidableEq, Repr

/-- Type `api.ExternalRepoSpec`. -/
structure ExternalRepoSpec where
  ID : String
  ServiceType : String
  ServiceID : String
deriving DecidableEq, Repr

/-- A `*graphqlbackend.RepositoryResolver`, seen through its getters `Name()`,
`DBID()` and `DBExternalRepo()`. -/
structure RepositoryResolver where
  Name : String
  DBID : Int
  DBExternalRepo : ExternalRepoSpec
deriving DecidableEq, Repr

/-- A `*graphqlbackend.GitRefResolver`, seen through its getter `AbbrevName()`. -/
structure GitRefResolver where
  AbbrevName : String
deriving DecidableEq, Repr

/-- Type `protocol.PatchCommitInfo`. -/
structure PatchCommitInfo where
  AuthorName : String
  AuthorEmail : String
  Message : String
  Date : Nat
deriving DecidableEq, Repr

/-- Type `protocol.CreateCommitFromPatchRequest`. -/
structure CreateCommitFromPatchRequest where
  Repo : String
  BaseCommit : String
  TargetRef : String
  Patch : String
  CommitInfo : PatchCommitInfo
deriving DecidableEq, Repr

/-- A `*gitserver.Cmd`: the command name and arguments given to
`gitserver.DefaultClient.Command`, and the field `Repo` set afterwards. -/
structure Cmd where
  Name : String
  Args : List String
  Repo : String
deriving DecidableEq, Repr

/-- Type `CreateChangesetData`. -/
structure CreateChangesetData where
  BaseRefName : String
  HeadRefName : String
  Title : String
  Body : String
  ExistingThreadID : Int
deriving DecidableEq, Repr

/-- The three GraphQL requests that `github_thread.go` sends, each with its
variables. -/
inductive GraphQLRequest where
  /-- `query($id: ID!) { node(id: $id) ... }` -/
  | node (id : String)
  /-- `query GetIssueOrPullRequest($repositoryId: ID!, $number: Int!)` -/
  | GetIssueOrPullRequest (repositoryId : String) (number : Int)
  /-- `query GitHubThreadsByQuery($query: String!)` -/
  | GitHubThreadsByQuery (query : String)
deriving DecidableEq, Repr

/-- One call that leaves the three files. -/
inductive Call where
  | getClientForRepo (repoID : Int)
  | RequestGraphQL (client : Client) (request : GraphQLRequest)
  | dbUpdateExternalThread (threadID : Int) (thread : externalThread)
  | ReposList (opt : ReposListOptions)
  | ReposGetByName (name : String)
  | getOrUpdateExistingGitHubIssueOrPullRequest (repoID externalServiceID : Int)
      (issue : githubIssueOrPullRequest) (threadID : Int)
  | log15Warn (msg : String) (repo title : String) (number : Int)
  | DefaultBranch (repo : RepositoryResolver)
  | TargetOID (ref : GitRefResolver)
  | CreateCommitFromPatch (req : CreateCommitFromPatchRequest)
  | CombinedOutput (cmd : Cmd)
  | createOrGetExistingGitHubPullRequest (repoID : Int) (extRepo : ExternalRepoSpec)
      (data : CreateChangesetData)
deriving DecidableEq, Repr

/-- The calls made so far, oldest first. -/
abbrev Trace := List Call

/-- The collaborators of the three files. Each answer may depend on the calls
made before it. A collaborator that returns a pointer next to an error is taken
to return a non-nil pointer when the error is nil; the nodes of a search
response are the exception and stay optional. -/
structure Env where
  std : GoStd
  getClientForRepo : Trace → Int → Except GoError (Client × Int)
  requestNode : Trace → Client → String → Except GoError (Option githubIssueOrPullRequest)
  requestIssueOrPullRequest :
    Trace → Client → String → Int → Except GoError (Option (Option githubIssueOrPullRequest))
  requestSearch : Trace → Client → String → Except GoError (List (Option githubIssueOrPullRequest))
  dbUpdateExternalThread : Trace → Int → externalThread → Option GoError
  ReposList : Trace → ReposListOptions → Except GoError (List Repo)
  ReposGetByName : Trace → String → Except GoError Repo
  getOrUpdateExistingGitHubIssueOrPullRequest :
    Trace → Int → Int → githubIssueOrPullRequest → Int → Int × Option GoError
  DefaultBranch : Trace → RepositoryResolver → Except GoError GitRefResolver
  TargetOID : Trace → GitRefResolver → Except GoError String
  timeNow : Trace → Nat
  CreateCommitFromPatch : Trace → CreateCommitFromPatchRequest → Except GoError String
  CombinedOutput : Trace → Cmd → String × Option GoError
  createOrGetExistingGitHubPullRequest :
    Trace → Int → ExternalRepoSpec → CreateChangesetData → Int × Option GoError

/-- A Go run-time failure. -/
inductive Panic where
  | indexOutOfRange
  | nilPointerDereference
deriving DecidableEq, Repr

/-- How a call ends: it returns, or the goroutine panics. -/
inductive Outcome (α : Type) where
  | ret (a : α)
  | panic (p : Panic)
deriving DecidableEq, Repr

/-! ## enterprise/cmd/frontend/internal/threads/external_service.go -/

/-- The character class `[a-zA-Z0-9_.]`; the regexp `IsAlphanumericWithPeriod`,
compiled from `[^a-zA-Z0-9_.]+`, matches the runs of runes outside it. -/
def inClass (c : Char) : Bool :=
  decide (('a' ≤ c ∧ c ≤ 'z') ∨ ('A' ≤ c ∧ c ≤ 'Z') ∨ ('0' ≤ c ∧ c ≤ '9') ∨
    c = '_' ∨ c = '.')

/-- Left-to-right replacement of every maximal run of runes outside the class
by `repl`. `inRun` tells that the rune before the current one was outside the
class, so the run it belongs to has been replaced already. -/
def replaceRuns (repl : List Char) : Bool → List Char → List Char
  | _, [] => []
  | inRun, c :: cs =>
    if inClass c then c :: replaceRuns repl false cs
    else if inRun then replaceRuns repl true cs
    else repl ++ replaceRuns repl true cs

/-- Method `ReplaceAllString` of the regexp `IsAlphanumericWithPeriod`, for a
replacement text without `$`. -/
def IsAlphanumericWithPeriod.ReplaceAllString (src repl : String) : String :=
  ⟨replaceRuns repl.data false src.data⟩

/-- The local `branchName` of `CreateOnExternalService`. -/
def branchName (campaignName : String) : String :=
  "a8n/" ++ TrimSuffix (IsAlphanumericWithPeriod.ReplaceAllString campaignName "-") "-"

/-- Function `CreateOnExternalService`. -/
def CreateOnExternalService (env : Env) (existingThreadID : Int)
    (threadTitle threadBody campaignName : String) (repo : RepositoryResolver)
    (patch : String) (tr : Trace) : (Int × Option GoError) × Trace :=
  let tr1 := tr ++ [Call.DefaultBranch repo]
  match env.DefaultBranch tr repo with
  | .error err => ((0, some err), tr1)
  | .ok defaultBranch =>
    let tr2 := tr1 ++ [Call.TargetOID defaultBranch]
    match env.TargetOID tr1 defaultBranch with
    | .error err => ((0, some err), tr2)
    | .ok oid =>
      let branchName := branchName campaignName
      if !HasPrefix repo.Name "github.com/sd9/" && !HasPrefix repo.Name "github.com/sd9org/" then
        ((0, some (errorsNew "refusing to modify non-sd9 test repo")), tr2)
      else
        -- Create a commit and ref.
        let refName := "refs/heads/" ++ branchName
        let req : CreateCommitFromPatchRequest :=
          { Repo := repo.Name
            BaseCommit := oid
            TargetRef := refName
            Patch := patch
            CommitInfo :=
              { AuthorName := "Quinn Slack"
                AuthorEmail := "sqs@sourcegraph.com"
                Message := "a8n: " ++ campaignName
                Date := env.timeNow tr2 } }
        let tr3 := tr2 ++ [Call.CreateCommitFromPatch req]
        match env.CreateCommitFromPatch tr2 req with
        | .error err => ((0, some err), tr3)
        | .ok _ =>
          -- Push the newly created ref.
          let cmd : Cmd :=
            { Name := "git"
              Args := ["push", "-f", "--", "origin",
                "refs/heads/" ++ defaultBranch.AbbrevName ++ ":refs/heads/" ++
                  defaultBranch.AbbrevName,
                refName ++ ":" ++ refName]
              Repo := repo.Name }
          let tr4 := tr3 ++ [Call.CombinedOutput cmd]
          match env.CombinedOutput tr3 cmd with
          | (out, some err) => ((0, some (errorsNew (err.msg ++ "\n\n" ++ out))), tr4)
          | (_, none) =>
            let data : CreateChangesetData :=
              { BaseRefName := defaultBranch.AbbrevName
                HeadRefName := branchName
                Title := threadTitle
                Body := threadBody ++ ("\n\n" ++
                  "<img src=\"https://about.sourcegraph.com/sourcegraph-mark.png\" width=12 height=12> Campaign: [" ++
                  campaignName ++ "](#)")
                ExistingThreadID := existingThreadID }
            (env.createOrGetExistingGitHubPullRequest tr4 repo.DBID repo.DBExternalRepo data,
              tr4 ++ [Call.createOrGetExistingGitHubPullRequest repo.DBID repo.DBExternalRepo data])

/-- The `git` commands run in a trace, oldest first. -/
def gitCommands : Trace → List Cmd
  | [] => []
  | Call.CombinedOutput cmd :: rest => cmd :: gitCommands rest
  | _ :: rest => gitCommands rest

/-- The arguments of a `git push` command after `--` and the remote: its
refspecs. -/
def pushRefspecs (cmd : Cmd) : List String :=
  match cmd.Args with
  | "push" :: "-f" :: "--" :: _ :: refspecs => refspecs
  | _ => []

/-- Whether a call creates a commit, pushes, or creates a pull request. -/
def Call.isRemoteMutation : Call → Bool
  | Call.CreateCommitFromPatch _ => true
  | Call.CombinedOutput _ => true
  | Call.createOrGetExistingGitHubPullRequest _ _ _ => true
  | _ => false

/-! ## enterprise/cmd/frontend/internal/threads/github_thread.go -/

/-- Function `UpdateGitHubThreadMetadata`. -/
def UpdateGitHubThreadMetadata (env : Env) (threadID threadExternalServiceID : Int)
    (externalID : String) (repoID : Int) (tr : Trace) : Option GoError × Trace :=
  let tr1 := tr ++ [Call.getClientForRepo repoID]
  match env.getClientForRepo tr repoID with
  | .error err => (some err, tr1)
  | .ok (client, externalServiceID) =>
    if externalServiceID ≠ threadExternalServiceID then
      (some (errorsNew ("thread " ++ fmtInt threadID ++ ": external service " ++
        fmtInt threadExternalServiceID ++ " in DB does not match repository external service " ++
        fmtInt externalServiceID)), tr1)
    else
      let tr2 := tr1 ++ [Call.RequestGraphQL client (GraphQLRequest.node externalID)]
      match env.requestNode tr1 client externalID with
      | .error err => (some err, tr2)
      | .ok none =>
        (some (errorsNew ("github issue or pull request with ID " ++
          env.std.strconvQuote externalID ++ " not found")), tr2)
      | .ok (some node) =>
        let externalThread := newExternalThread node repoID externalServiceID
        (env.dbUpdateExternalThread tr2 threadID externalThread,
          tr2 ++ [Call.dbUpdateExternalThread threadID externalThread])

/-- Function `getExistingGitHubIssueOrPullRequest`. The decoded response `resp`
is `Node *struct{ IssueOrPullRequest *githubIssueOrPullRequest }`. -/
def getExistingGitHubIssueOrPullRequest (env : Env) (client : Client)
    (githubRepositoryID : String) (number : Int) (tr : Trace) :
    (Option githubIssueOrPullRequest × Option GoError) × Trace :=
  let tr1 := tr ++
    [Call.RequestGraphQL client (GraphQLRequest.GetIssueOrPullRequest githubRepositoryID number)]
  match env.requestIssueOrPullRequest tr client githubRepositoryID number with
  | .error err => ((none, some err), tr1)
  | .ok none =>
    ((none, some (errorsNew ("github repository with ID " ++
      env.std.strconvQuote githubRepositoryID ++ " not found"))), tr1)
  | .ok (some none) =>
    ((none, some (errorsNew ("no github issue or pull request in repository " ++
      env.std.strconvQuote githubRepositoryID ++ " with number " ++ fmtInt number))), tr1)
  | .ok (some (some issueOrPullRequest)) => ((some issueOrPullRequest, none), tr1)

/-- Function `getExistingGitHubThreadsByQuery`. A node of the response is a
pointer and can be nil. -/
def getExistingGitHubThreadsByQuery (env : Env) (client : Client) (query : String)
    (tr : Trace) : (List (Option githubIssueOrPullRequest) × Option GoError) × Trace :=
  let tr1 := tr ++ [Call.RequestGraphQL client (GraphQLRequest.GitHubThreadsByQuery query)]
  match env.requestSearch tr client query with
  | .error err => (([], some err), tr1)
  | .ok nodes => ((nodes, none), tr1)

/-- What one pass through the body of the loop of
`createOrGetExistingGitHubThreadsByQuery` does with a search result. -/
inductive ItemResult where
  /-- `continue`: the repository lookup failed with a not-found error. -/
  | skipped
  /-- the end of the body is reached: `threadID` is appended. -/
  | imported (threadID : Int)
  /-- `return nil, err`. -/
  | failed (err : GoError)
deriving DecidableEq, Repr

/-- The body of the `for` loop of `createOrGetExistingGitHubThreadsByQuery`. -/
def importItem (env : Env) (extThread : githubIssueOrPullRequest) (tr : Trace) :
    ItemResult × Trace :=
  let name := "github.com/" ++ extThread.Repository.NameWithOwner
  let tr1 := tr ++ [Call.ReposGetByName name]
  match env.ReposGetByName tr name with
  | .error err =>
    if err.notFound then
      (ItemResult.skipped, tr1 ++ [Call.log15Warn
        "Ignoring issue in repository that is not present on this Sourcegraph instance. Update the external service configuration to include this repository and rerun the import to add this issue."
        extThread.Repository.NameWithOwner extThread.Title extThread.Number])
    else (ItemResult.failed err, tr1)
  | .ok repo =>
    let tr2 := tr1 ++ [Call.getClientForRepo repo.ID]
    match env.getClientForRepo tr1 repo.ID with
    | .error err => (ItemResult.failed err, tr2)
    | .ok (_, externalServiceID) =>
      let tr3 := tr2 ++
        [Call.getOrUpdateExistingGitHubIssueOrPullRequest repo.ID externalServiceID extThread 0]
      match env.getOrUpdateExistingGitHubIssueOrPullRequest tr2 repo.ID externalServiceID
          extThread 0 with
      | (_, some err) => (ItemResult.failed err, tr3)
      | (threadID, none) => (ItemResult.imported threadID, tr3)

/-- The `for` loop of `createOrGetExistingGitHubThreadsByQuery` over the
remaining search results, with the thread IDs collected so far. A nil node
panics at `extThread.Repository`. -/
def importLoop (env : Env) :
    List (Option githubIssueOrPullRequest) → List Int → Trace →
      Outcome (List Int × Option GoError) × Trace
  | [], threadIDs, tr => (Outcome.ret (threadIDs, none), tr)
  | none :: _, _, tr => (Outcome.panic Panic.nilPointerDereference, tr)
  | some extThread :: rest, threadIDs, tr =>
    match importItem env extThread tr with
    | (ItemResult.skipped, tr1) => importLoop env rest threadIDs tr1
    | (ItemResult.failed err, tr1) => (Outcome.ret ([], some err), tr1)
    | (ItemResult.imported threadID, tr1) => importLoop env rest (threadIDs ++ [threadID]) tr1

/-- Function `createOrGetExistingGitHubThreadsByQuery`. A nil slice is `[]`. -/
def createOrGetExistingGitHubThreadsByQuery (env : Env) (query : String) (tr : Trace) :
    Outcome (List Int × Option GoError) × Trace :=
  let opt : ReposListOptions :=
    { Enabled := true, LimitOffset := some { Limit := 1, Offset := 0 } }
  let tr1 := tr ++ [Call.ReposList opt]
  match env.ReposList tr opt with
  | .error err => (Outcome.ret ([], some err), tr1)
  | .ok repos =>
    match repos[0]? with
    | none => (Outcome.panic Panic.indexOutOfRange, tr1)
    | some repo0 =>
      let tr2 := tr1 ++ [Call.getClientForRepo repo0.ID]
      match env.getClientForRepo tr1 repo0.ID with
      | .error err => (Outcome.ret ([], some err), tr2)
      | .ok (client, _) =>
        match getExistingGitHubThreadsByQuery env client query tr2 with
        | ((_, some err), tr3) => (Outcome.ret ([], some err), tr3)
        | ((extThreads, none), tr3) => importLoop env extThreads [] tr3

/-- The results of the passes through the loop body for the search results
`extThreads`, processed one after the other from trace `tr`. -/
def itemResults (env : Env) : List githubIssueOrPullRequest → Trace → List ItemResult
  | [], _ => []
  | extThread :: rest, tr =>
    (importItem env extThread tr).1 :: itemResults env rest (importItem env extThread tr).2

/-- The trace after the passes through the loop body for `extThreads`. -/
def traceAfterItems (env : Env) : List githubIssueOrPullRequest → Trace → Trace
  | [], tr => tr
  | extThread :: rest, tr => traceAfterItems env rest (importItem env extThread tr).2

/-- The thread ID that a pass through the loop body has appended, if any. -/
def ItemResult.threadID? : ItemResult → Option Int
  | ItemResult.imported threadID => some threadID
  | _ => none

/-- Whether a pass through the loop body ended in `return nil, err`. -/
def ItemResult.isFailed : ItemResult → Bool
  | ItemResult.failed _ => true
  | _ => false

/-- The calls that a run started at trace `before` has added to reach trace
`after`. -/
def newCalls (before after : Trace) : Trace :=
  after.drop before.length

/-! ## A concrete environment -/

/-- Search result in a repository known to the instance. -/
def issue1 : githubIssueOrPullRequest :=
  { Repository := { NameWithOwner := "sd9/repo" }, Title := "first", Number := 1 }

/-- Search result in a repository unknown to the instance. -/
def issue2 : githubIssueOrPullRequest :=
  { Repository := { NameWithOwner := "elsewhere/repo" }, Title := "second", Number := 2 }

/-- Another search result in the known repository. -/
def issue3 : githubIssueOrPullRequest :=
  { Repository := { NameWithOwner := "sd9/repo" }, Title := "third", Number := 3 }

/-- The options of the repository listing in
`createOrGetExistingGitHubThreadsByQuery`. -/
def firstEnabledRepo : ReposListOptions :=
  { Enabled := true, LimitOffset := some { Limit := 1, Offset := 0 } }

/-- An instance with the single repository `github.com/sd9/repo` (ID 1, default
branch `master`), bound to external service 1; every collaborator succeeds,
except that other repository names are not found. -/
def sampleEnv : Env where
  std := asciiStd
  getClientForRepo := fun _ _ => .ok ({ handle := 0 }, 1)
  requestNode := fun _ _ _ => .ok (some issue1)
  requestIssueOrPullRequest := fun _ _ id number =>
    if id = "R1" then (if number = 1 then .ok (some (some issue1)) else .ok (some none))
    else .ok none
  requestSearch := fun _ _ _ => .ok [some issue1, some issue2, some issue3]
  dbUpdateExternalThread := fun _ _ _ => none
  ReposList := fun _ _ => .ok [{ ID := 1, Name := "github.com/sd9/repo" }]
  ReposGetByName := fun _ name =>
    if name = "github.com/sd9/repo" then .ok { ID := 1, Name := name }
    else .error { msg := "repo not found", notFound := true }
  getOrUpdateExistingGitHubIssueOrPullRequest := fun _ _ _ issue _ => (100 + issue.Number, none)
  DefaultBranch := fun _ _ => .ok { AbbrevName := "master" }
  TargetOID := fun _ _ => .ok "c1"
  timeNow := fun _ => 0
  CreateCommitFromPatch := fun _ _ => .ok "c2"
  CombinedOutput := fun _ _ => ("", none)
  createOrGetExistingGitHubPullRequest := fun _ _ _ _ => (42, none)

/-- The sample instance, where storing the third search result fails. -/
def failingUpdateEnv : Env :=
  { sampleEnv with
    getOrUpdateExistingGitHubIssueOrPullRequest := fun _ _ _ issue _ =>
      if issue.Number = 3 then (0, some { msg := "database is down", notFound := false })
      else (100 + issue.Number, none) }

/-- The sample instance, where the default branch cannot be resolved. -/
def noDefaultBranchEnv : Env :=
  { sampleEnv with
    DefaultBranch := fun _ _ => .error { msg := "no default branch", notFound := false } }

/-- The sample instance without any enabled repository. -/
def noRepoEnv : Env :=
  { sampleEnv with ReposList := fun _ _ => .ok [] }

/-- The repository `github.com/sd9/repo` of the sample instance. -/
def sandboxRepo : RepositoryResolver :=
  { Name := "github.com/sd9/repo", DBID := 1,
    DBExternalRepo := { ID := "R1", ServiceType := "github", ServiceID := "https://github.com/" } }

/-- A repository outside the sandbox namespaces. -/
def liveRepo : RepositoryResolver :=
  { Name := "github.com/sourcegraph/sourcegraph", DBID := 2,
    DBExternalRepo := { ID := "R2", ServiceType := "github", ServiceID := "https://github.com/" } }

/-- The push command of the sample instance for campaign `fix-bug`. -/
def samplePush : Cmd :=
  { Name := "git"
    Args := ["push", "-f", "--", "origin", "refs/heads/master:refs/heads/master",
      "refs/heads/a8n/fix-bug:refs/heads/a8n/fix-bug"]
    Repo := "github.com/sd9/repo" }

/-! ### Lemmas on the string helpers -/

theorem hasSuffix_append_self (p s : String) : HasSuffix (p ++ s) s = true := by
  simp [HasSuffix, String.data_append]

theorem map_eq_of_forall₂ (f : Char → Char) (l1 l2 : List Char)
    (h : List.Forall₂ (fun a b => f a = f b) l1 l2) : l1.map f = l2.map f := by
  induction h with
  | nil => rfl
  | cons hab _ ih => simp [hab, ih]

theorem toLower_eq_of_sameUpToCase (lowerRune : Char → Char) (h1 h2 : String)
    (h : SameUpToCase lowerRune h1 h2) : ToLower lowerRune h1 = ToLower lowerRune h2 := by
  unfold ToLower
  congr 1
  exact map_eq_of_forall₂ lowerRune _ _ h

theorem normalize_path_eq_of_sameUpToTrailingSlash (p1 p2 : String)
    (h : SameUpToTrailingSlash p1 p2) :
    (if !HasSuffix p1 "/" then p1 ++ "/" else p1) =
      (if !HasSuffix p2 "/" then p2 ++ "/" else p2) := by
  rcases h with h | ⟨h1, h2⟩ | ⟨h1, h2⟩
  · subst h; rfl
  · subst h2; simp [h1, hasSuffix_append_self]
  · subst h2; simp [h1, hasSuffix_append_self]

theorem normalizeBaseURL_eq (std : GoStd) (u : URL) :
    NormalizeBaseURL std u =
      { u with Host := ToLower std.unicodeToLower u.Host
               Path := if !HasSuffix u.Path "/" then u.Path ++ "/" else u.Path } := by
  unfold NormalizeBaseURL
  by_cases h : HasSuffix u.Path "/" = true <;> simp [h]

/-! ### Code-host identity -/

theorem newCodeHost_serviceID_eq_of_rawPath_eq (std : GoStd) (u1 u2 : URL) (t : String)
    (h : DifferOnlyInHostCaseOrTrailingSlash std.unicodeToLower u1 u2)
    (hraw : u1.RawPath = u2.RawPath) :
    (NewCodeHost std u1 t).ServiceID = (NewCodeHost std u2 t).ServiceID := by
  obtain ⟨h1, h2, h3, h5, h6, h7, hhost, hpath, _⟩ := h
  have hn : NormalizeBaseURL std u1 = NormalizeBaseURL std u2 := by
    rw [normalizeBaseURL_eq, normalizeBaseURL_eq]
    rw [toLower_eq_of_sameUpToCase _ _ _ hhost,
      normalize_path_eq_of_sameUpToTrailingSlash _ _ hpath]
    cases u1; cases u2
    simp_all
  simp only [NewCodeHost, hn]

theorem newCodeHost_serviceID_examples :
    (NewCodeHost asciiStd exampleURL1 "github").ServiceID = "https://github.com/" ∧
    (NewCodeHost asciiStd exampleURL2 "github").ServiceID = "https://github.com/" := by
  constructor <;> decide

/-- C1 fails on the code: `https://github.com/a%2Fb` and
`https://github.com/a%2Fb/`, as `url.Parse` returns them, differ only in the
trailing `/` of the path. `NormalizeBaseURL` appends the `/` to `Path` and
leaves `RawPath` as it was, so the first URL is serialized from its decoded
path and the second from its encoded path: the two `ServiceID`s differ. The
first two lines say that `/a/b` with `RawPath` `/a%2Fb` is what the parser
stores for the raw path `/a%2Fb`. -/
theorem newCodeHost_serviceID_differs_on_escaped_path :
    unescapePath escapedPathURL.RawPath.data = some (stringBytes escapedPathURL.Path) ∧
    escape escapedPathURL.Path encoding.encodePath ≠ escapedPathURL.RawPath ∧
    DifferOnlyInHostCaseOrTrailingSlash asciiStd.unicodeToLower
      escapedPathURL escapedPathSlashURL ∧
    (NewCodeHost asciiStd escapedPathURL "github").ServiceID = "https://github.com/a/b/" ∧
    (NewCodeHost asciiStd escapedPathSlashURL "github").ServiceID =
      "https://github.com/a%2Fb/" ∧
    (NewCodeHost asciiStd escapedPathURL "github").ServiceID ≠
      (NewCodeHost asciiStd escapedPathSlashURL "github").ServiceID := by
  refine ⟨by decide, by decide, ?_, by decide, by decide, by decide⟩
  refine ⟨rfl, rfl, rfl, rfl, rfl, rfl, ?_, ?_, ?_⟩
  · simp [SameUpToCase, escapedPathURL, escapedPathSlashURL, asciiStd]
  · right; left
    exact ⟨by decide, by decide⟩
  · right; left
    exact ⟨by decide, by decide⟩

/-- C8: `NormalizeBaseURL` lower-cases the host, appends one `/` to the path
exactly when the path does not end in `/`, and leaves every other field as it
was; `NewCodeHost` keeps the service type, stores the normalized URL and takes
its serialization as `ServiceID`. -/
theorem normalizeBaseURL_newCodeHost_spec (std : GoStd) (u : URL) (t : String) :
    (NormalizeBaseURL std u).Host = ToLower std.unicodeToLower u.Host ∧
    (NormalizeBaseURL std u).Path =
      (if HasSuffix u.Path "/" = true then u.Path else u.Path ++ "/") ∧
    (NormalizeBaseURL std u).Scheme = u.Scheme ∧
    (NormalizeBaseURL std u).Opaque = u.Opaque ∧
    (NormalizeBaseURL std u).User = u.User ∧
    (NormalizeBaseURL std u).RawPath = u.RawPath ∧
    (NormalizeBaseURL std u).ForceQuery = u.ForceQuery ∧
    (NormalizeBaseURL std u).RawQuery = u.RawQuery ∧
    (NormalizeBaseURL std u).Fragment = u.Fragment ∧
    (NewCodeHost std u t).ServiceType = t ∧
    (NewCodeHost std u t).BaseURL = NormalizeBaseURL std u ∧
    (NewCodeHost std u t).ServiceID = std.urlString (NormalizeBaseURL std u) := by
  rw [normalizeBaseURL_eq]
  by_cases h : HasSuffix u.Path "/" = true <;> simp [NewCodeHost, h, normalizeBaseURL_eq]

/-! ### Metadata update and lookup by repository and number -/

theorem errorsNew_ne_of_head_ne (a b : Char) (s1 s2 t1 t2 : String) (hab : a ≠ b)
    (h1 : s1.data.head? = some a) (h2 : s2.data.head? = some b) :
    errorsNew (s1 ++ t1) ≠ errorsNew (s2 ++ t2) := by
  intro h
  have hmsg : (s1 ++ t1).data.head? = (s2 ++ t2).data.head? := by
    have := congrArg GoError.msg h
    simp only [errorsNew] at this
    rw [this]
  rw [String.data_append, String.data_append] at hmsg
  cases hs1 : s1.data with
  | nil => simp [hs1] at h1
  | cons x xs =>
    cases hs2 : s2.data with
    | nil => simp [hs2] at h2
    | cons y ys =>
      simp [hs1, hs2] at h1 h2 hmsg
      exact hab (by rw [← h1, ← h2, hmsg])

/-- C2: when the client of the repository is resolved and the resolved external
service ID differs from `threadExternalServiceID`, `UpdateGitHubThreadMetadata`
returns the service-mismatch error, and the only call it has made is the client
resolution: no GraphQL request and no `dbUpdateExternalThread`. -/
theorem updateGitHubThreadMetadata_service_mismatch (env : Env)
    (threadID threadExternalServiceID : Int) (externalID : String) (repoID : Int)
    (tr : Trace) (client : Client) (externalServiceID : Int)
    (hclient : env.getClientForRepo tr repoID = .ok (client, externalServiceID))
    (hne : externalServiceID ≠ threadExternalServiceID) :
    UpdateGitHubThreadMetadata env threadID threadExternalServiceID externalID repoID tr =
      (some (errorsNew ("thread " ++ fmtInt threadID ++ ": external service " ++
        fmtInt threadExternalServiceID ++ " in DB does not match repository external service " ++
        fmtInt externalServiceID)), tr ++ [Call.getClientForRepo repoID]) := by
  simp [UpdateGitHubThreadMetadata, hclient, hne]

/-- C7: on a successful GraphQL response, `getExistingGitHubIssueOrPullRequest`
returns the entity exactly when the repository node and its issue or pull
request are both present; an absent repository node gives the
repository-not-found error, an absent entity gives the entity-not-found error,
neither returns an entity, and the two errors are different. -/
theorem getExistingGitHubIssueOrPullRequest_spec (env : Env) (client : Client)
    (githubRepositoryID : String) (number : Int) (tr : Trace)
    (resp : Option (Option githubIssueOrPullRequest))
    (hresp : env.requestIssueOrPullRequest tr client githubRepositoryID number = .ok resp) :
    (∀ entity, (getExistingGitHubIssueOrPullRequest env client githubRepositoryID number tr).1 =
        (some entity, none) ↔ resp = some (some entity)) ∧
    (resp = none →
      (getExistingGitHubIssueOrPullRequest env client githubRepositoryID number tr).1 =
        (none, some (errorsNew ("github repository with ID " ++
          env.std.strconvQuote githubRepositoryID ++ " not found")))) ∧
    (resp = some none →
      (getExistingGitHubIssueOrPullRequest env client githubRepositoryID number tr).1 =
        (none, some (errorsNew ("no github issue or pull request in repository " ++
          env.std.strconvQuote githubRepositoryID ++ " with number " ++ fmtInt number)))) ∧
    errorsNew ("github repository with ID " ++
        env.std.strconvQuote githubRepositoryID ++ " not found") ≠
      errorsNew ("no github issue or pull request in repository " ++
        env.std.strconvQuote githubRepositoryID ++ " with number " ++ fmtInt number) := by
  refine ⟨?_, ?_, ?_, ?_⟩
  · intro entity
    rcases resp with _ | _ | e <;>
      simp [getExistingGitHubIssueOrPullRequest, hresp]
  · intro h; subst h
    simp [getExistingGitHubIssueOrPullRequest, hresp]
  · intro h; subst h
    simp [getExistingGitHubIssueOrPullRequest, hresp]
  · simp only [String.append_assoc]
    exact errorsNew_ne_of_head_ne 'g' 'n' _ _ _ _ (by decide) (by decide) (by decide)

/-- Witness of C2 on the sample instance: a thread recorded under service 2 in a
repository of service 1. -/
theorem updateGitHubThreadMetadata_service_mismatch_witness :
    sampleEnv.getClientForRepo [] 1 = .ok ({ handle := 0 }, 1) ∧ (1 : Int) ≠ 2 ∧
    UpdateGitHubThreadMetadata sampleEnv 10 2 "N1" 1 [] =
      (some (errorsNew ("thread " ++ fmtInt 10 ++ ": external service " ++
        fmtInt 2 ++ " in DB does not match repository external service " ++
        fmtInt 1)), [] ++ [Call.getClientForRepo 1]) :=
  ⟨rfl, by decide,
    updateGitHubThreadMetadata_service_mismatch sampleEnv 10 2 "N1" 1 [] { handle := 0 } 1
      rfl (by decide)⟩

/-- Witness of C7 on the sample instance: repository `R1` has no entity
number 7. -/
theorem getExistingGitHubIssueOrPullRequest_spec_witness :
    sampleEnv.requestIssueOrPullRequest [] { handle := 0 } "R1" 7 = .ok (some none) ∧
    (getExistingGitHubIssueOrPullRequest sampleEnv { handle := 0 } "R1" 7 []).1 =
      (none, some (errorsNew ("no github issue or pull request in repository " ++
        sampleEnv.std.strconvQuote "R1" ++ " with number " ++ fmtInt 7))) :=
  ⟨rfl, (getExistingGitHubIssueOrPullRequest_spec sampleEnv { handle := 0 } "R1" 7 []
    (some none) rfl).2.2.1 rfl⟩

/-! ### Branch names -/

theorem inClass_ne_hyphen (c : Char) (h : inClass c = true) : c ≠ '-' := by
  intro hc
  subst hc
  exact absurd h (by decide)

theorem replaceRuns_mem (inRun : Bool) (cs : List Char) :
    ∀ c ∈ replaceRuns ['-'] inRun cs, inClass c = true ∨ c = '-' := by
  induction cs generalizing inRun with
  | nil => intro c hc; simp [replaceRuns] at hc
  | cons d ds ih =>
    intro c hc
    unfold replaceRuns at hc
    by_cases hd : inClass d = true
    · simp only [hd, if_true, List.mem_cons] at hc
      rcases hc with rfl | hc
      · exact Or.inl hd
      · exact ih false c hc
    · cases inRun
      · simp only [hd, if_false, Bool.false_eq_true, List.cons_append, List.nil_append,
          List.mem_cons] at hc
        rcases hc with rfl | hc
        · exact Or.inr rfl
        · exact ih true c hc
      · simp only [hd, if_false, if_true] at hc
        exact ih true c hc

theorem replaceRuns_filter (inRun : Bool) (cs : List Char) :
    (replaceRuns ['-'] inRun cs).filter (fun c => c != '-') = cs.filter inClass := by
  induction cs generalizing inRun with
  | nil => simp [replaceRuns]
  | cons d ds ih =>
    unfold replaceRuns
    by_cases hd : inClass d = true
    · have hne : d ≠ '-' := inClass_ne_hyphen d hd
      simp [hd, hne, ih]
    · cases inRun <;> simp [hd, ih]

theorem replaceRuns_true_head (cs : List Char) :
    (replaceRuns ['-'] true cs).head? ≠ some '-' := by
  induction cs with
  | nil => simp [replaceRuns]
  | cons d ds ih =>
    unfold replaceRuns
    by_cases hd : inClass d = true
    · have hne : d ≠ '-' := inClass_ne_hyphen d hd
      simp [hd, hne]
    · simpa [hd] using ih

theorem replaceRuns_chain (inRun : Bool) (cs : List Char) :
    List.Chain' (fun a b => ¬(a = '-' ∧ b = '-')) (replaceRuns ['-'] inRun cs) := by
  induction cs generalizing inRun with
  | nil => simp [replaceRuns]
  | cons d ds ih =>
    unfold replaceRuns
    by_cases hd : inClass d = true
    · have hne : d ≠ '-' := inClass_ne_hyphen d hd
      simp only [hd, if_true]
      rw [List.chain'_cons']
      exact ⟨fun y _ h => hne h.1, ih false⟩
    · cases inRun
      · simp only [hd, if_false, Bool.false_eq_true, List.cons_append, List.nil_append]
        rw [List.chain'_cons']
        refine ⟨fun y hy h => replaceRuns_true_head ds ?_, ih true⟩
        rw [Option.mem_def] at hy
        rw [hy, h.2]
      · simp only [hd, if_false, if_true]
        exact ih true

theorem no_adjacent_of_chain (l : List Char)
    (h : List.Chain' (fun a b => ¬(a = '-' ∧ b = '-')) l) (l1 l2 : List Char) :
    l ≠ l1 ++ '-' :: '-' :: l2 := by
  intro hl
  have hin : ['-', '-'] <:+: l := ⟨l1, l2, by simp [hl]⟩
  have := h.infix hin
  simp at this

theorem trimSuffix_hyphen_cases (s : String) :
    (s.data = (TrimSuffix s "-").data ++ ['-']) ∨
    (¬ ['-'] <:+ s.data ∧ (TrimSuffix s "-").data = s.data) := by
  unfold TrimSuffix HasSuffix
  by_cases h : ['-'] <:+ s.data
  · left
    have h' := List.suffix_iff_eq_append.1 h
    simp [h]
    simpa using h'.symm
  · right
    simp [h]

/-- C5: the branch name derived from a campaign name is `a8n/` followed by a
string `s` made of class characters `[A-Za-z0-9_.]` and hyphens, without two
adjacent hyphens and without a final hyphen, whose characters other than
hyphens are the class characters of the campaign name in the same order; the
campaign name `fix-bug` gives `a8n/fix-bug`. -/
theorem branchName_spec (campaignName : String) :
    (∃ s : String, branchName campaignName = "a8n/" ++ s ∧
      (∀ c ∈ s.data, inClass c = true ∨ c = '-') ∧
      (∀ l1 l2 : List Char, s.data ≠ l1 ++ '-' :: '-' :: l2) ∧
      HasSuffix s "-" = false ∧
      s.data.filter (fun c => c != '-') = campaignName.data.filter inClass) ∧
    branchName "fix-bug" = "a8n/fix-bug" := by
  refine ⟨⟨TrimSuffix (IsAlphanumericWithPeriod.ReplaceAllString campaignName "-") "-",
    rfl, ?_, ?_, ?_, ?_⟩, by decide⟩
  all_goals
    have hmem := replaceRuns_mem false campaignName.data
    have hfil := replaceRuns_filter false campaignName.data
    have hadj := no_adjacent_of_chain _ (replaceRuns_chain false campaignName.data)
    rcases trimSuffix_hyphen_cases
      (IsAlphanumericWithPeriod.ReplaceAllString campaignName "-") with hc | ⟨hns, hc⟩
  · intro c hcs
    apply hmem
    show c ∈ (IsAlphanumericWithPeriod.ReplaceAllString campaignName "-").data
    rw [hc]
    exact List.mem_append_left _ hcs
  · intro c hcs
    apply hmem
    show c ∈ (IsAlphanumericWithPeriod.ReplaceAllString campaignName "-").data
    rw [← hc]
    exact hcs
  · intro l1 l2 hs
    apply hadj l1 (l2 ++ ['-'])
    show (IsAlphanumericWithPeriod.ReplaceAllString campaignName "-").data = _
    rw [hc, hs]
    simp
  · intro l1 l2 hs
    apply hadj l1 l2
    show (IsAlphanumericWithPeriod.ReplaceAllString campaignName "-").data = _
    rw [← hc, hs]
  · rw [Bool.eq_false_iff]
    intro hsuf
    unfold HasSuffix at hsuf
    rw [List.isSuffixOf_iff_suffix] at hsuf
    obtain ⟨l, hl⟩ := hsuf
    apply hadj l []
    show (IsAlphanumericWithPeriod.ReplaceAllString campaignName "-").data = _
    rw [hc, ← hl]
    simp
  · rw [Bool.eq_false_iff]
    intro hsuf
    unfold HasSuffix at hsuf
    rw [List.isSuffixOf_iff_suffix, hc] at hsuf
    exact hns hsuf
  · rw [← hfil]
    show _ = List.filter _ (IsAlphanumericWithPeriod.ReplaceAllString campaignName "-").data
    rw [hc]
    simp
  · rw [← hfil]
    show _ = List.filter _ (IsAlphanumericWithPeriod.ReplaceAllString campaignName "-").data
    rw [hc]

/-! ### Publishing a patch -/

theorem newCalls_append (tr l : Trace) : newCalls tr (tr ++ l) = l := by
  simp [newCalls]

/-- C6, as the code has it: for a repository outside the two sandbox
namespaces, `CreateOnExternalService` returns thread ID 0 and an error without
creating a commit, pushing or creating a pull request, and the error is the
refusal error once the default branch and its commit are resolved; for a
repository inside one of the namespaces, once both are resolved, the guard lets
the run go on to the commit creation. -/
theorem createOnExternalService_guard (env : Env) (existingThreadID : Int)
    (threadTitle threadBody campaignName : String) (repo : RepositoryResolver)
    (patch : String) (tr : Trace) :
    (HasPrefix repo.Name "github.com/sd9/" = false →
      HasPrefix repo.Name "github.com/sd9org/" = false →
      (CreateOnExternalService env existingThreadID threadTitle threadBody campaignName
        repo patch tr).1.1 = 0 ∧
      (∃ err, (CreateOnExternalService env existingThreadID threadTitle threadBody campaignName
        repo patch tr).1.2 = some err) ∧
      (∀ c ∈ newCalls tr (CreateOnExternalService env existingThreadID threadTitle threadBody
        campaignName repo patch tr).2, c.isRemoteMutation = false) ∧
      (∀ defaultBranch oid, env.DefaultBranch tr repo = .ok defaultBranch →
        env.TargetOID (tr ++ [Call.DefaultBranch repo]) defaultBranch = .ok oid →
        (CreateOnExternalService env existingThreadID threadTitle threadBody campaignName
          repo patch tr).1 = (0, some (errorsNew "refusing to modify non-sd9 test repo")))) ∧
    (HasPrefix repo.Name "github.com/sd9/" = true ∨
        HasPrefix repo.Name "github.com/sd9org/" = true →
      ∀ defaultBranch oid, env.DefaultBranch tr repo = .ok defaultBranch →
        env.TargetOID (tr ++ [Call.DefaultBranch repo]) defaultBranch = .ok oid →
        ∃ req, Call.CreateCommitFromPatch req ∈
          newCalls tr (CreateOnExternalService env existingThreadID threadTitle threadBody
            campaignName repo patch tr).2) := by
  constructor
  · intro h1 h2
    unfold CreateOnExternalService
    cases hdb : env.DefaultBranch tr repo with
    | error err => simp [newCalls_append, Call.isRemoteMutation]
    | ok defaultBranch =>
      cases hoid : env.TargetOID (tr ++ [Call.DefaultBranch repo]) defaultBranch with
      | error err =>
        refine ⟨by simp [hoid], by simp [hoid], ?_, ?_⟩
        · simp [hoid, List.append_assoc, newCalls_append, Call.isRemoteMutation]
        · intro d o hd ho
          cases hd
          rw [hoid] at ho
          cases ho
      | ok oid => simp [hoid, h1, h2, List.append_assoc, newCalls_append, Call.isRemoteMutation]
  · intro h defaultBranch oid hdb hoid
    have hguard : (!HasPrefix repo.Name "github.com/sd9/" &&
        !HasPrefix repo.Name "github.com/sd9org/") = false := by
      rcases h with h | h <;> simp [h]
    refine ⟨
      { Repo := repo.Name
        BaseCommit := oid
        TargetRef := "refs/heads/" ++ branchName campaignName
        Patch := patch
        CommitInfo :=
          { AuthorName := "Quinn Slack"
            AuthorEmail := "sqs@sourcegraph.com"
            Message := "a8n: " ++ campaignName
            Date := env.timeNow (tr ++ [Call.DefaultBranch repo] ++
              [Call.TargetOID defaultBranch]) } }, ?_⟩
    unfold CreateOnExternalService
    simp only [hdb, hoid, hguard, Bool.false_eq_true, if_false]
    split
    · simp [List.append_assoc, newCalls_append]
    · split
      · simp [List.append_assoc, newCalls_append]
      · simp [List.append_assoc, newCalls_append]

/-- Witness of C6 (as the code has it) on the sample instance: a repository
outside the sandbox namespaces is refused, one inside reaches the commit
creation. -/
theorem createOnExternalService_guard_witness :
    (HasPrefix liveRepo.Name "github.com/sd9/" = false ∧
      HasPrefix liveRepo.Name "github.com/sd9org/" = false ∧
      (CreateOnExternalService sampleEnv 0 "title" "body" "fix-bug" liveRepo "" []).1.1 = 0 ∧
      (∃ err, (CreateOnExternalService sampleEnv 0 "title" "body" "fix-bug"
        liveRepo "" []).1.2 = some err) ∧
      (∀ c ∈ newCalls [] (CreateOnExternalService sampleEnv 0 "title" "body" "fix-bug"
        liveRepo "" []).2, c.isRemoteMutation = false) ∧
      (∀ defaultBranch oid, sampleEnv.DefaultBranch [] liveRepo = .ok defaultBranch →
        sampleEnv.TargetOID ([] ++ [Call.DefaultBranch liveRepo]) defaultBranch = .ok oid →
        (CreateOnExternalService sampleEnv 0 "title" "body" "fix-bug" liveRepo "" []).1 =
          (0, some (errorsNew "refusing to modify non-sd9 test repo")))) ∧
    ((HasPrefix sandboxRepo.Name "github.com/sd9/" = true ∨
        HasPrefix sandboxRepo.Name "github.com/sd9org/" = true) ∧
      sampleEnv.DefaultBranch [] sandboxRepo = .ok { AbbrevName := "master" } ∧
      sampleEnv.TargetOID ([] ++ [Call.DefaultBranch sandboxRepo]) { AbbrevName := "master" } =
        .ok "c1" ∧
      ∃ req, Call.CreateCommitFromPatch req ∈
        newCalls [] (CreateOnExternalService sampleEnv 0 "title" "body" "fix-bug"
          sandboxRepo "" []).2) :=
  ⟨⟨by decide, by decide,
    (createOnExternalService_guard sampleEnv 0 "title" "body" "fix-bug" liveRepo "" []).1
      (by decide) (by decide)⟩,
   ⟨Or.inl (by decide), rfl, rfl,
    (createOnExternalService_guard sampleEnv 0 "title" "body" "fix-bug" sandboxRepo "" []).2
      (Or.inl (by decide)) { AbbrevName := "master" } "c1" rfl rfl⟩⟩

/-- C6 as stated fails: when the default branch of a repository outside the
sandbox namespaces cannot be resolved, the error returned is the resolution
error, not the refusal error. -/
theorem createOnExternalService_refusal_counterexample :
    HasPrefix liveRepo.Name "github.com/sd9/" = false ∧
    HasPrefix liveRepo.Name "github.com/sd9org/" = false ∧
    (CreateOnExternalService noDefaultBranchEnv 0 "title" "body" "fix-bug" liveRepo "" []).1 =
      (0, some { msg := "no default branch", notFound := false }) ∧
    (CreateOnExternalService noDefaultBranchEnv 0 "title" "body" "fix-bug" liveRepo "" []).1 ≠
      (0, some (errorsNew "refusing to modify non-sd9 test repo")) := by
  refine ⟨by decide, by decide, rfl, ?_⟩
  decide

/-- C9, as the code has it: when `CreateOnExternalService` runs a git command,
it is the one command `git push -f -- origin` on the repository, with exactly
two refspecs in this order: the default branch onto itself and the derived
branch onto itself. -/
theorem createOnExternalService_push (env : Env) (existingThreadID : Int)
    (threadTitle threadBody campaignName : String) (repo : RepositoryResolver)
    (patch : String) (tr : Trace) (cmd : Cmd)
    (hpush : Call.CombinedOutput cmd ∈ newCalls tr (CreateOnExternalService env
      existingThreadID threadTitle threadBody campaignName repo patch tr).2) :
    ∃ defaultBranch, env.DefaultBranch tr repo = .ok defaultBranch ∧
      cmd.Name = "git" ∧ cmd.Repo = repo.Name ∧
      cmd.Args = ["push", "-f", "--", "origin",
        "refs/heads/" ++ defaultBranch.AbbrevName ++ ":refs/heads/" ++ defaultBranch.AbbrevName,
        "refs/heads/" ++ branchName campaignName ++ ":" ++
          ("refs/heads/" ++ branchName campaignName)] ∧
      pushRefspecs cmd =
        ["refs/heads/" ++ defaultBranch.AbbrevName ++ ":refs/heads/" ++ defaultBranch.AbbrevName,
         "refs/heads/" ++ branchName campaignName ++ ":" ++
          ("refs/heads/" ++ branchName campaignName)] ∧
      gitCommands (newCalls tr (CreateOnExternalService env existingThreadID threadTitle
        threadBody campaignName repo patch tr).2) = [cmd] := by
  unfold CreateOnExternalService at hpush ⊢
  cases hdb : env.DefaultBranch tr repo with
  | error err => simp [hdb, newCalls_append] at hpush
  | ok defaultBranch =>
    refine ⟨defaultBranch, rfl, ?_⟩
    simp only [hdb] at hpush ⊢
    split at hpush
    · simp [List.append_assoc, newCalls_append] at hpush
    · split at hpush
      · simp [List.append_assoc, newCalls_append] at hpush
      · split at hpush
        · simp [List.append_assoc, newCalls_append] at hpush
        · split at hpush
          · simp only [List.append_assoc, newCalls_append] at hpush
            simp at hpush
            subst hpush
            by_cases hg1 : HasPrefix repo.Name "github.com/sd9/" = true <;>
              by_cases hg2 : HasPrefix repo.Name "github.com/sd9org/" = true <;>
              simp_all [List.append_assoc, newCalls_append, gitCommands, pushRefspecs]
          · simp only [List.append_assoc, newCalls_append] at hpush
            simp at hpush
            subst hpush
            by_cases hg1 : HasPrefix repo.Name "github.com/sd9/" = true <;>
              by_cases hg2 : HasPrefix repo.Name "github.com/sd9org/" = true <;>
              simp_all [List.append_assoc, newCalls_append, gitCommands, pushRefspecs]

/-- Witness of C9 (as the code has it): publishing campaign `fix-bug` on the
sample instance. -/
theorem createOnExternalService_push_witness :
    Call.CombinedOutput samplePush ∈ newCalls [] (CreateOnExternalService sampleEnv 0
      "title" "body" "fix-bug" sandboxRepo "" []).2 ∧
    ∃ defaultBranch, sampleEnv.DefaultBranch [] sandboxRepo = .ok defaultBranch ∧
      samplePush.Name = "git" ∧ samplePush.Repo = sandboxRepo.Name ∧
      samplePush.Args = ["push", "-f", "--", "origin",
        "refs/heads/" ++ defaultBranch.AbbrevName ++ ":refs/heads/" ++ defaultBranch.AbbrevName,
        "refs/heads/" ++ branchName "fix-bug" ++ ":" ++
          ("refs/heads/" ++ branchName "fix-bug")] ∧
      pushRefspecs samplePush =
        ["refs/heads/" ++ defaultBranch.AbbrevName ++ ":refs/heads/" ++ defaultBranch.AbbrevName,
         "refs/heads/" ++ branchName "fix-bug" ++ ":" ++
          ("refs/heads/" ++ branchName "fix-bug")] ∧
      gitCommands (newCalls [] (CreateOnExternalService sampleEnv 0 "title" "body" "fix-bug"
        sandboxRepo "" []).2) = [samplePush] :=
  have h : Call.CombinedOutput samplePush ∈ newCalls [] (CreateOnExternalService sampleEnv 0
      "title" "body" "fix-bug" sandboxRepo "" []).2 := by decide
  ⟨h, createOnExternalService_push sampleEnv 0 "title" "body" "fix-bug" sandboxRepo "" []
    samplePush h⟩

/-- C9 as stated fails: publishing campaign `fix-bug` on the sample instance,
whose default branch is `master`, force-pushes `master` as well as the derived
branch. -/
theorem createOnExternalService_push_counterexample :
    (gitCommands (CreateOnExternalService sampleEnv 0 "title" "body" "fix-bug"
      sandboxRepo "" []).2).map pushRefspecs =
      [["refs/heads/master:refs/heads/master",
        "refs/heads/a8n/fix-bug:refs/heads/a8n/fix-bug"]] ∧
    (gitCommands (CreateOnExternalService sampleEnv 0 "title" "body" "fix-bug"
      sandboxRepo "" []).2).map pushRefspecs ≠
      [["refs/heads/" ++ branchName "fix-bug" ++ ":refs/heads/" ++ branchName "fix-bug"]] := by
  constructor <;> decide

/-! ### Import by search query -/

theorem importItem_skipped_iff (env : Env) (extThread : githubIssueOrPullRequest)
    (tr : Trace) :
    (importItem env extThread tr).1 = ItemResult.skipped ↔
      ∃ err, env.ReposGetByName tr ("github.com/" ++ extThread.Repository.NameWithOwner) =
        .error err ∧ err.notFound = true := by
  unfold importItem
  cases h1 : env.ReposGetByName tr ("github.com/" ++ extThread.Repository.NameWithOwner) with
  | error err => by_cases hnf : err.notFound = true <;> simp [hnf, h1]
  | ok repo =>
    simp only [h1]
    split
    · simp
    · split <;> simp

theorem importItem_imported_iff (env : Env) (extThread : githubIssueOrPullRequest)
    (tr : Trace) (threadID : Int) :
    (importItem env extThread tr).1 = ItemResult.imported threadID ↔
      ∃ repo client externalServiceID,
        env.ReposGetByName tr ("github.com/" ++ extThread.Repository.NameWithOwner) =
          .ok repo ∧
        env.getClientForRepo
          (tr ++ [Call.ReposGetByName ("github.com/" ++ extThread.Repository.NameWithOwner)])
          repo.ID = .ok (client, externalServiceID) ∧
        env.getOrUpdateExistingGitHubIssueOrPullRequest
          (tr ++ [Call.ReposGetByName ("github.com/" ++ extThread.Repository.NameWithOwner)] ++
            [Call.getClientForRepo repo.ID])
          repo.ID externalServiceID extThread 0 = (threadID, none) := by
  unfold importItem
  cases h1 : env.ReposGetByName tr ("github.com/" ++ extThread.Repository.NameWithOwner) with
  | error err => by_cases hnf : err.notFound = true <;> simp [hnf, h1]
  | ok repo =>
    simp only [h1]
    cases h2 : env.getClientForRepo
        (tr ++ [Call.ReposGetByName ("github.com/" ++ extThread.Repository.NameWithOwner)])
        repo.ID with
    | error err => simp [h2]
    | ok p =>
      obtain ⟨client, sid⟩ := p
      simp only [h2, List.append_assoc, List.cons_append, List.nil_append]
      cases h3 : env.getOrUpdateExistingGitHubIssueOrPullRequest
        (tr ++ [Call.ReposGetByName ("github.com/" ++ extThread.Repository.NameWithOwner),
          Call.getClientForRepo repo.ID]) repo.ID sid extThread 0 with
      | mk id e =>
        cases e with
        | none =>
          simp only [h3]
          constructor
          · intro h
            cases h
            exact ⟨repo, client, sid, rfl, h2, h3⟩
          · rintro ⟨r, c, x, hr, hc, hu⟩
            cases hr
            rw [h2] at hc
            cases hc
            rw [h3] at hu
            cases hu
            rfl
        | some err =>
          simp only [h3]
          constructor
          · intro h
            cases h
          · rintro ⟨r, c, x, hr, hc, hu⟩
            cases hr
            rw [h2] at hc
            cases hc
            rw [h3] at hu
            cases hu

theorem itemResults_length (env : Env) (extThreads : List githubIssueOrPullRequest)
    (tr : Trace) : (itemResults env extThreads tr).length = extThreads.length := by
  induction extThreads generalizing tr with
  | nil => rfl
  | cons x xs ih => simp [itemResults, ih]

theorem itemResults_append (env : Env) (l1 l2 : List githubIssueOrPullRequest) (tr : Trace) :
    itemResults env (l1 ++ l2) tr =
      itemResults env l1 tr ++ itemResults env l2 (traceAfterItems env l1 tr) := by
  induction l1 generalizing tr with
  | nil => rfl
  | cons x xs ih => simp [itemResults, traceAfterItems, ih]

theorem traceAfterItems_append (env : Env) (l1 l2 : List githubIssueOrPullRequest)
    (tr : Trace) :
    traceAfterItems env (l1 ++ l2) tr = traceAfterItems env l2 (traceAfterItems env l1 tr) := by
  induction l1 generalizing tr with
  | nil => rfl
  | cons x xs ih => simp [traceAfterItems, ih]

theorem filterMap_threadID_imported (ids : List Int) :
    (ids.map ItemResult.imported).filterMap ItemResult.threadID? = ids := by
  induction ids with
  | nil => rfl
  | cons x xs ih => simp [ItemResult.threadID?, ih]

theorem importLoop_of_no_failure (env : Env) (extThreads : List githubIssueOrPullRequest)
    (threadIDs : List Int) (tr : Trace)
    (h : ∀ r ∈ itemResults env extThreads tr, r.isFailed = false) :
    importLoop env (extThreads.map some) threadIDs tr =
      (Outcome.ret (threadIDs ++
        (itemResults env extThreads tr).filterMap ItemResult.threadID?, none),
        traceAfterItems env extThreads tr) := by
  induction extThreads generalizing threadIDs tr with
  | nil => simp [importLoop, itemResults, traceAfterItems]
  | cons x xs ih =>
    simp only [itemResults, List.mem_cons, forall_eq_or_imp] at h
    obtain ⟨hx, hxs⟩ := h
    simp only [List.map_cons, importLoop, itemResults, traceAfterItems]
    cases hitem : importItem env x tr with
    | mk r tr1 =>
      rw [hitem] at hx hxs
      cases r with
      | skipped => simp [ih _ _ hxs, ItemResult.threadID?]
      | imported id => simp [ih _ _ hxs, ItemResult.threadID?]
      | failed err => simp [ItemResult.isFailed] at hx

theorem importLoop_of_failure (env : Env) (before after : List githubIssueOrPullRequest)
    (extThread : githubIssueOrPullRequest) (threadIDs : List Int) (tr : Trace) (err : GoError)
    (h : ∀ r ∈ itemResults env before tr, r.isFailed = false)
    (hfail : (importItem env extThread (traceAfterItems env before tr)).1 =
      ItemResult.failed err) :
    importLoop env ((before ++ extThread :: after).map some) threadIDs tr =
      (Outcome.ret ([], some err),
        (importItem env extThread (traceAfterItems env before tr)).2) := by
  induction before generalizing threadIDs tr with
  | nil =>
    simp only [traceAfterItems] at hfail ⊢
    simp only [List.nil_append, List.map_cons, importLoop]
    cases hitem : importItem env extThread tr with
    | mk r tr1 =>
      rw [hitem] at hfail
      simp only [] at hfail
      subst hfail
      rfl
  | cons x xs ih =>
    simp only [itemResults, List.mem_cons, forall_eq_or_imp] at h
    obtain ⟨hx, hxs⟩ := h
    simp only [traceAfterItems] at hfail ⊢
    simp only [List.cons_append, List.map_cons, importLoop]
    cases hitem : importItem env x tr with
    | mk r tr1 =>
      rw [hitem] at hx hxs hfail
      cases r with
      | skipped => exact ih _ _ hxs hfail
      | imported id => exact ih _ _ hxs hfail
      | failed err => simp [ItemResult.isFailed] at hx

theorem createOrGetExistingGitHubThreadsByQuery_eq_importLoop (env : Env) (query : String)
    (tr : Trace) (repo0 : Repo) (repos : List Repo) (client : Client) (sid : Int)
    (nodes : List (Option githubIssueOrPullRequest))
    (hlist : env.ReposList tr firstEnabledRepo = .ok (repo0 :: repos))
    (hclient : env.getClientForRepo (tr ++ [Call.ReposList firstEnabledRepo]) repo0.ID =
      .ok (client, sid))
    (hsearch : env.requestSearch
      (tr ++ [Call.ReposList firstEnabledRepo] ++ [Call.getClientForRepo repo0.ID])
      client query = .ok nodes) :
    createOrGetExistingGitHubThreadsByQuery env query tr =
      importLoop env nodes []
        (tr ++ [Call.ReposList firstEnabledRepo] ++ [Call.getClientForRepo repo0.ID] ++
          [Call.RequestGraphQL client (GraphQLRequest.GitHubThreadsByQuery query)]) := by
  unfold firstEnabledRepo at hlist hclient hsearch ⊢
  unfold createOrGetExistingGitHubThreadsByQuery getExistingGitHubThreadsByQuery
  simp only [hlist, List.getElem?_cons_zero, hclient, hsearch]

/-- C3: when the search returns `n` entities, the repository lookup of exactly
one of them fails with a not-found error and every other step succeeds,
`createOrGetExistingGitHubThreadsByQuery` returns no error and the `n - 1`
thread IDs of the other entities, in the order of the search results. -/
theorem createOrGetExistingGitHubThreadsByQuery_skips_unknown_repository (env : Env)
    (query : String) (tr : Trace) (repo0 : Repo) (repos : List Repo) (client : Client)
    (sid : Int) (extThreads : List githubIssueOrPullRequest) (ids1 ids2 : List Int)
    (hlist : env.ReposList tr firstEnabledRepo = .ok (repo0 :: repos))
    (hclient : env.getClientForRepo (tr ++ [Call.ReposList firstEnabledRepo]) repo0.ID =
      .ok (client, sid))
    (hsearch : env.requestSearch
      (tr ++ [Call.ReposList firstEnabledRepo] ++ [Call.getClientForRepo repo0.ID])
      client query = .ok (extThreads.map some))
    (hitems : itemResults env extThreads
      (tr ++ [Call.ReposList firstEnabledRepo] ++ [Call.getClientForRepo repo0.ID] ++
        [Call.RequestGraphQL client (GraphQLRequest.GitHubThreadsByQuery query)]) =
      ids1.map ItemResult.imported ++ ItemResult.skipped :: ids2.map ItemResult.imported) :
    (createOrGetExistingGitHubThreadsByQuery env query tr).1 =
      Outcome.ret (ids1 ++ ids2, none) ∧
    (ids1 ++ ids2).length = extThreads.length - 1 := by
  constructor
  · rw [createOrGetExistingGitHubThreadsByQuery_eq_importLoop env query tr repo0 repos client
      sid _ hlist hclient hsearch]
    rw [importLoop_of_no_failure]
    · rw [hitems, List.filterMap_append, List.filterMap_cons, filterMap_threadID_imported,
        filterMap_threadID_imported]
      simp [ItemResult.threadID?]
    · rw [hitems]
      intro r hr
      simp only [List.mem_append, List.mem_map, List.mem_cons] at hr
      rcases hr with ⟨id, _, rfl⟩ | rfl | ⟨id, _, rfl⟩ <;> rfl
  · have hlen := itemResults_length env extThreads
      (tr ++ [Call.ReposList firstEnabledRepo] ++ [Call.getClientForRepo repo0.ID] ++
        [Call.RequestGraphQL client (GraphQLRequest.GitHubThreadsByQuery query)])
    rw [hitems] at hlen
    simp at hlen
    simp
    omega

/-- Witness of C3 on the sample instance: three search results, the second in a
repository that the instance does not know. -/
theorem createOrGetExistingGitHubThreadsByQuery_skips_unknown_repository_witness :
    sampleEnv.ReposList [] firstEnabledRepo =
      .ok ({ ID := 1, Name := "github.com/sd9/repo" } :: []) ∧
    itemResults sampleEnv [issue1, issue2, issue3]
      ([] ++ [Call.ReposList firstEnabledRepo] ++ [Call.getClientForRepo 1] ++
        [Call.RequestGraphQL { handle := 0 } (GraphQLRequest.GitHubThreadsByQuery "is:open")]) =
      [101].map ItemResult.imported ++ ItemResult.skipped :: [103].map ItemResult.imported ∧
    (createOrGetExistingGitHubThreadsByQuery sampleEnv "is:open" []).1 =
      Outcome.ret ([101] ++ [103], none) ∧
    ([101] ++ [103] : List Int).length = [issue1, issue2, issue3].length - 1 :=
  ⟨rfl, by decide,
    createOrGetExistingGitHubThreadsByQuery_skips_unknown_repository sampleEnv "is:open" []
      { ID := 1, Name := "github.com/sd9/repo" } [] { handle := 0 } 1 [issue1, issue2, issue3]
      [101] [103] rfl rfl rfl (by decide)⟩

theorem importItem_of_failure (env : Env) (extThread : githubIssueOrPullRequest)
    (t calls : Trace) (err : GoError)
    (hfail :
      (env.ReposGetByName t ("github.com/" ++ extThread.Repository.NameWithOwner) =
          .error err ∧ err.notFound = false ∧
        calls = [Call.ReposGetByName ("github.com/" ++ extThread.Repository.NameWithOwner)]) ∨
      (∃ repo,
        env.ReposGetByName t ("github.com/" ++ extThread.Repository.NameWithOwner) =
          .ok repo ∧
        env.getClientForRepo
          (t ++ [Call.ReposGetByName ("github.com/" ++ extThread.Repository.NameWithOwner)])
          repo.ID = .error err ∧
        calls = [Call.ReposGetByName ("github.com/" ++ extThread.Repository.NameWithOwner),
          Call.getClientForRepo repo.ID]) ∨
      (∃ repo client externalServiceID threadID,
        env.ReposGetByName t ("github.com/" ++ extThread.Repository.NameWithOwner) =
          .ok repo ∧
        env.getClientForRepo
          (t ++ [Call.ReposGetByName ("github.com/" ++ extThread.Repository.NameWithOwner)])
          repo.ID = .ok (client, externalServiceID) ∧
        env.getOrUpdateExistingGitHubIssueOrPullRequest
          (t ++ [Call.ReposGetByName ("github.com/" ++ extThread.Repository.NameWithOwner)] ++
            [Call.getClientForRepo repo.ID])
          repo.ID externalServiceID extThread 0 = (threadID, some err) ∧
        calls = [Call.ReposGetByName ("github.com/" ++ extThread.Repository.NameWithOwner),
          Call.getClientForRepo repo.ID,
          Call.getOrUpdateExistingGitHubIssueOrPullRequest repo.ID externalServiceID
            extThread 0])) :
    importItem env extThread t = (ItemResult.failed err, t ++ calls) := by
  unfold importItem
  rcases hfail with ⟨h1, hnf, rfl⟩ | ⟨repo, h1, h2, rfl⟩ | ⟨repo, c, x, id, h1, h2, h3, rfl⟩
  · simp [h1, hnf]
  · simp [h1, h2]
  · simp only [List.append_assoc, List.cons_append, List.nil_append] at h3
    simp [h1, h2, h3]

theorem importItem_failed_iff (env : Env) (extThread : githubIssueOrPullRequest)
    (t : Trace) (err : GoError) :
    (importItem env extThread t).1 = ItemResult.failed err ↔
      (env.ReposGetByName t ("github.com/" ++ extThread.Repository.NameWithOwner) =
          .error err ∧ err.notFound = false) ∨
      (∃ repo,
        env.ReposGetByName t ("github.com/" ++ extThread.Repository.NameWithOwner) =
          .ok repo ∧
        env.getClientForRepo
          (t ++ [Call.ReposGetByName ("github.com/" ++ extThread.Repository.NameWithOwner)])
          repo.ID = .error err) ∨
      (∃ repo client externalServiceID threadID,
        env.ReposGetByName t ("github.com/" ++ extThread.Repository.NameWithOwner) =
          .ok repo ∧
        env.getClientForRepo
          (t ++ [Call.ReposGetByName ("github.com/" ++ extThread.Repository.NameWithOwner)])
          repo.ID = .ok (client, externalServiceID) ∧
        env.getOrUpdateExistingGitHubIssueOrPullRequest
          (t ++ [Call.ReposGetByName ("github.com/" ++ extThread.Repository.NameWithOwner)] ++
            [Call.getClientForRepo repo.ID])
          repo.ID externalServiceID extThread 0 = (threadID, some err)) := by
  constructor
  · intro h
    unfold importItem at h
    cases h1 : env.ReposGetByName t
        ("github.com/" ++ extThread.Repository.NameWithOwner) with
    | error e =>
      by_cases hnf : e.notFound = true
      · simp [h1, hnf] at h
      · simp [h1, hnf] at h
        subst h
        exact Or.inl ⟨rfl, by simpa using hnf⟩
    | ok repo =>
      right
      cases h2 : env.getClientForRepo
          (t ++ [Call.ReposGetByName ("github.com/" ++ extThread.Repository.NameWithOwner)])
          repo.ID with
      | error e =>
        simp [h1, h2] at h
        subst h
        exact Or.inl ⟨repo, rfl, h2⟩
      | ok p =>
        obtain ⟨c, x⟩ := p
        right
        cases h3 : env.getOrUpdateExistingGitHubIssueOrPullRequest
          (t ++ [Call.ReposGetByName ("github.com/" ++ extThread.Repository.NameWithOwner)] ++
            [Call.getClientForRepo repo.ID]) repo.ID x extThread 0 with
        | mk id e =>
          have h3' := h3
          simp only [List.append_assoc, List.cons_append, List.nil_append] at h3'
          cases e with
          | none => simp [h1, h2, h3'] at h
          | some e =>
            simp [h1, h2, h3'] at h
            subst h
            exact ⟨repo, c, x, id, rfl, h2, h3⟩
  · intro h
    rcases h with ⟨h1, hnf⟩ | ⟨repo, h1, h2⟩ | ⟨repo, c, x, id, h1, h2, h3⟩
    · rw [importItem_of_failure env extThread t _ err (Or.inl ⟨h1, hnf, rfl⟩)]
    · rw [importItem_of_failure env extThread t _ err (Or.inr (Or.inl ⟨repo, h1, h2, rfl⟩))]
    · rw [importItem_of_failure env extThread t _ err
        (Or.inr (Or.inr ⟨repo, c, x, id, h1, h2, h3, rfl⟩))]

/-- C4, as the code has it: when the earlier search results were imported or
skipped and the processing of the next one fails (the repository lookup fails
with an error other than not-found, or the client resolution fails, or the
create-or-update fails), the caller receives the nil list together with that
first error; the last call made is the one that failed, so no later search
result is processed. -/
theorem createOrGetExistingGitHubThreadsByQuery_first_error (env : Env)
    (query : String) (tr : Trace) (repo0 : Repo) (repos : List Repo) (client : Client)
    (sid : Int) (before after : List githubIssueOrPullRequest)
    (extThread : githubIssueOrPullRequest) (t calls : Trace) (err : GoError)
    (hlist : env.ReposList tr firstEnabledRepo = .ok (repo0 :: repos))
    (hclient : env.getClientForRepo (tr ++ [Call.ReposList firstEnabledRepo]) repo0.ID =
      .ok (client, sid))
    (hsearch : env.requestSearch
      (tr ++ [Call.ReposList firstEnabledRepo] ++ [Call.getClientForRepo repo0.ID])
      client query = .ok ((before ++ extThread :: after).map some))
    (hbefore : ∀ r ∈ itemResults env before
      (tr ++ [Call.ReposList firstEnabledRepo] ++ [Call.getClientForRepo repo0.ID] ++
        [Call.RequestGraphQL client (GraphQLRequest.GitHubThreadsByQuery query)]),
      r = ItemResult.skipped ∨ ∃ threadID, r = ItemResult.imported threadID)
    (ht : traceAfterItems env before
      (tr ++ [Call.ReposList firstEnabledRepo] ++ [Call.getClientForRepo repo0.ID] ++
        [Call.RequestGraphQL client (GraphQLRequest.GitHubThreadsByQuery query)]) = t)
    (hfail :
      (env.ReposGetByName t ("github.com/" ++ extThread.Repository.NameWithOwner) =
          .error err ∧ err.notFound = false ∧
        calls = [Call.ReposGetByName ("github.com/" ++ extThread.Repository.NameWithOwner)]) ∨
      (∃ repo,
        env.ReposGetByName t ("github.com/" ++ extThread.Repository.NameWithOwner) =
          .ok repo ∧
        env.getClientForRepo
          (t ++ [Call.ReposGetByName ("github.com/" ++ extThread.Repository.NameWithOwner)])
          repo.ID = .error err ∧
        calls = [Call.ReposGetByName ("github.com/" ++ extThread.Repository.NameWithOwner),
          Call.getClientForRepo repo.ID]) ∨
      (∃ repo client externalServiceID threadID,
        env.ReposGetByName t ("github.com/" ++ extThread.Repository.NameWithOwner) =
          .ok repo ∧
        env.getClientForRepo
          (t ++ [Call.ReposGetByName ("github.com/" ++ extThread.Repository.NameWithOwner)])
          repo.ID = .ok (client, externalServiceID) ∧
        env.getOrUpdateExistingGitHubIssueOrPullRequest
          (t ++ [Call.ReposGetByName ("github.com/" ++ extThread.Repository.NameWithOwner)] ++
            [Call.getClientForRepo repo.ID])
          repo.ID externalServiceID extThread 0 = (threadID, some err) ∧
        calls = [Call.ReposGetByName ("github.com/" ++ extThread.Repository.NameWithOwner),
          Call.getClientForRepo repo.ID,
          Call.getOrUpdateExistingGitHubIssueOrPullRequest repo.ID externalServiceID
            extThread 0])) :
    createOrGetExistingGitHubThreadsByQuery env query tr =
      (Outcome.ret ([], some err), t ++ calls) := by
  rw [createOrGetExistingGitHubThreadsByQuery_eq_importLoop env query tr repo0 repos client
    sid _ hlist hclient hsearch]
  have hitem := importItem_of_failure env extThread t calls err hfail
  subst ht
  rw [importLoop_of_failure env before after extThread [] _ err]
  · rw [hitem]
  · intro r hr
    rcases hbefore r hr with rfl | ⟨id, rfl⟩ <;> rfl
  · rw [hitem]

/-- Witness of C4 (as the code has it): on the sample instance the first search
result is imported, the second is skipped, and storing the third one fails. -/
theorem createOrGetExistingGitHubThreadsByQuery_first_error_witness :
    itemResults failingUpdateEnv [issue1, issue2]
      ([] ++ [Call.ReposList firstEnabledRepo] ++ [Call.getClientForRepo 1] ++
        [Call.RequestGraphQL { handle := 0 } (GraphQLRequest.GitHubThreadsByQuery "is:open")]) =
      [ItemResult.imported 101, ItemResult.skipped] ∧
    failingUpdateEnv.getOrUpdateExistingGitHubIssueOrPullRequest
      (traceAfterItems failingUpdateEnv [issue1, issue2]
        ([] ++ [Call.ReposList firstEnabledRepo] ++ [Call.getClientForRepo 1] ++
          [Call.RequestGraphQL { handle := 0 }
            (GraphQLRequest.GitHubThreadsByQuery "is:open")]) ++
        [Call.ReposGetByName ("github.com/" ++ issue3.Repository.NameWithOwner)] ++
        [Call.getClientForRepo 1])
      1 1 issue3 0 = (0, some { msg := "database is down", notFound := false }) ∧
    createOrGetExistingGitHubThreadsByQuery failingUpdateEnv "is:open" [] =
      (Outcome.ret ([], some { msg := "database is down", notFound := false }),
        traceAfterItems failingUpdateEnv [issue1, issue2]
          ([] ++ [Call.ReposList firstEnabledRepo] ++ [Call.getClientForRepo 1] ++
            [Call.RequestGraphQL { handle := 0 }
              (GraphQLRequest.GitHubThreadsByQuery "is:open")]) ++
        [Call.ReposGetByName ("github.com/" ++ issue3.Repository.NameWithOwner),
          Call.getClientForRepo 1,
          Call.getOrUpdateExistingGitHubIssueOrPullRequest 1 1 issue3 0]) :=
  have hres : itemResults failingUpdateEnv [issue1, issue2]
      ([] ++ [Call.ReposList firstEnabledRepo] ++ [Call.getClientForRepo 1] ++
        [Call.RequestGraphQL { handle := 0 } (GraphQLRequest.GitHubThreadsByQuery "is:open")]) =
      [ItemResult.imported 101, ItemResult.skipped] := by decide
  ⟨hres, rfl,
    createOrGetExistingGitHubThreadsByQuery_first_error failingUpdateEnv "is:open" []
      { ID := 1, Name := "github.com/sd9/repo" } [] { handle := 0 } 1 [issue1, issue2] []
      issue3 _ _ { msg := "database is down", notFound := false } rfl rfl rfl
      (by
        intro r hr
        rw [hres] at hr
        simp only [List.mem_cons, List.mem_singleton, List.not_mem_nil, or_false] at hr
        rcases hr with rfl | rfl
        · exact Or.inr ⟨101, rfl⟩
        · exact Or.inl rfl)
      rfl
      (Or.inr (Or.inr ⟨{ ID := 1, Name := "github.com/sd9/repo" }, { handle := 0 }, 1, 0,
        rfl, rfl, rfl, rfl⟩))⟩

/-- C4 as stated fails: on the sample instance the first search result is
imported as thread 101 and storing the third one fails; the caller receives the
error with the nil list, not with the list of the thread imported before. -/
theorem createOrGetExistingGitHubThreadsByQuery_partial_list_counterexample :
    itemResults failingUpdateEnv [issue1, issue2, issue3]
      [Call.ReposList firstEnabledRepo, Call.getClientForRepo 1,
        Call.RequestGraphQL { handle := 0 } (GraphQLRequest.GitHubThreadsByQuery "is:open")] =
      [ItemResult.imported 101, ItemResult.skipped,
        ItemResult.failed { msg := "database is down", notFound := false }] ∧
    (createOrGetExistingGitHubThreadsByQuery failingUpdateEnv "is:open" []).1 =
      Outcome.ret ([], some { msg := "database is down", notFound := false }) ∧
    (createOrGetExistingGitHubThreadsByQuery failingUpdateEnv "is:open" []).1 ≠
      Outcome.ret ([101], some { msg := "database is down", notFound := false }) := by
  refine ⟨by decide, by decide, by decide⟩

/-- C10 fails on the code: when the repository listing succeeds with an empty
list, `repos[0]` is out of range and the call panics right after the listing. -/
theorem createOrGetExistingGitHubThreadsByQuery_panics_on_empty_listing (env : Env)
    (query : String) (tr : Trace)
    (hlist : env.ReposList tr firstEnabledRepo = .ok []) :
    createOrGetExistingGitHubThreadsByQuery env query tr =
      (Outcome.panic Panic.indexOutOfRange, tr ++ [Call.ReposList firstEnabledRepo]) := by
  unfold firstEnabledRepo at hlist ⊢
  unfold createOrGetExistingGitHubThreadsByQuery
  simp only [hlist, List.getElem?_nil]

/-- The failing input of C10: an instance without any enabled repository. -/
theorem createOrGetExistingGitHubThreadsByQuery_panics_on_empty_listing_witness :
    noRepoEnv.ReposList [] firstEnabledRepo = .ok [] ∧
    createOrGetExistingGitHubThreadsByQuery noRepoEnv "is:open" [] =
      (Outcome.panic Panic.indexOutOfRange, [] ++ [Call.ReposList firstEnabledRepo]) :=
  ⟨rfl, createOrGetExistingGitHubThreadsByQuery_panics_on_empty_listing noRepoEnv "is:open" []
    rfl⟩

end Sourcegraph
